import Mathlib

/-!
# Verification of fossil-threads concurrency primitives

A shallow embedding of the fossil-threads library (src/code/logic) in Lean 4,
with theorems settling the frozen claims about its specification.

Conventions of the embedding:
* C `int` return codes are `Int`; machine 64-bit arithmetic is `Nat` with
  explicit `% 2 ^ 64`.
* C pointers are modelled as `Option` values (`none` = `NULL`); ghost objects
  live in a caller heap (`List`), a ghost pointer being an index into it.
* C strings (ghost ids, candidate tags) are byte lists without NUL bytes;
  `strncpy` into a 64-byte field is `List.take 63` (the stored strings are
  always NUL-terminated inside their 64-byte buffers, so `strncmp(_,_,64)`
  equality coincides with list equality, and `strlen` with list length).
* The global ledger array is kept newest-entry-first, so the C append at
  index `count` is a cons and the backwards scan of
  `fossil_threads_ghost_collapse_by_consensus` is a forward `findIdx?`;
  the separate static counter `fossil__ledger_count` is kept as its own
  field, exactly as in ghost.c.
* `size_t` values hashed by `fossil__fnv1a64` are serialized as 8 bytes
  little-endian (the layout on the library's supported platforms).
-/

namespace FossilThreads

/-! ## Error codes (src/code/logic/fossil/threads/{thread,ghost,mutex,cond,fiber}.h) -/

/-- thread.h lines 249-296 -/
def FOSSIL_THREADS_OK : Int := 0
def FOSSIL_THREADS_EPERM : Int := 1
def FOSSIL_THREADS_ENOMEM : Int := 12
def FOSSIL_THREADS_EBUSY : Int := 16
def FOSSIL_THREADS_EINVAL : Int := 22
def FOSSIL_THREADS_ENOSYS : Int := 38
def FOSSIL_THREADS_ETIMEDOUT : Int := 110
def FOSSIL_THREADS_EDEADLK : Int := 35
def FOSSIL_THREADS_EAGAIN : Int := 11
def FOSSIL_THREADS_EINTR : Int := 4
def FOSSIL_THREADS_EIO : Int := 5
def FOSSIL_THREADS_ENOTSTARTED : Int := 201
def FOSSIL_THREADS_EFINISHED : Int := 202
def FOSSIL_THREADS_EJOINED : Int := 203
def FOSSIL_THREADS_EDETACHED : Int := 204
def FOSSIL_THREADS_ECANCELLED : Int := 205
def FOSSIL_THREADS_ESTATE : Int := 206
def FOSSIL_THREADS_ELOCK : Int := 210
def FOSSIL_THREADS_EUNLOCK : Int := 211
def FOSSIL_THREADS_ECONDWAIT : Int := 212
def FOSSIL_THREADS_ECONDSTATE : Int := 213
def FOSSIL_THREADS_EBARRIER : Int := 214
def FOSSIL_THREADS_ETHREADID : Int := 215
def FOSSIL_THREADS_EINTERNAL : Int := 250
def FOSSIL_THREADS_EOSFAIL : Int := 251
def FOSSIL_THREADS_EUNSUPPORTED : Int := 252
def FOSSIL_THREADS_ESTATECORRUPT : Int := 253

/-- ghost.h lines 45-52 -/
def FOSSIL_GHOST_OK : Int := 0
def FOSSIL_GHOST_EINVAL : Int := 22
def FOSSIL_GHOST_ENOMEM : Int := 12
def FOSSIL_GHOST_EBUSY : Int := 16
def FOSSIL_GHOST_ENOTSUP : Int := 95
def FOSSIL_GHOST_EINTERNAL : Int := 199

/-- mutex.h lines 134-139 -/
def FOSSIL_THREADS_MUTEX_OK : Int := 0
def FOSSIL_THREADS_MUTEX_EINVAL : Int := 22
def FOSSIL_THREADS_MUTEX_EBUSY : Int := 16
def FOSSIL_THREADS_MUTEX_EINTERNAL : Int := 199

/-- mutex.c maps pthread rc EPERM to these (lines 61, 113-114, 135, 160-161) -/
def FOSSIL_THREADS_MUTEX_EPERM : Int := 1
def FOSSIL_THREADS_MUTEX_ENOMEM : Int := 12
def FOSSIL_THREADS_MUTEX_EDEADLK : Int := 35
def FOSSIL_THREADS_MUTEX_EUNLOCK : Int := 211

/-- cond.h lines 164-176 -/
def FOSSIL_THREADS_COND_OK : Int := 0
def FOSSIL_THREADS_COND_EINVAL : Int := 22
def FOSSIL_THREADS_COND_ETIMEDOUT : Int := 110
def FOSSIL_THREADS_COND_EINTERNAL : Int := 199
def FOSSIL_THREADS_COND_ENOMEM : Int := 12
def FOSSIL_THREADS_COND_EBUSY : Int := 16
def FOSSIL_THREADS_COND_EPERM : Int := 1
def FOSSIL_THREADS_COND_EDEADLK : Int := 35
def FOSSIL_THREADS_COND_EAGAIN : Int := 11
def FOSSIL_THREADS_COND_ENOSYS : Int := 38

/-- fiber.h lines 33-40 -/
def FOSSIL_FIBER_OK : Int := 0
def FOSSIL_FIBER_EINVAL : Int := 22
def FOSSIL_FIBER_EBUSY : Int := 16
def FOSSIL_FIBER_ENOMEM : Int := 12
def FOSSIL_FIBER_ENOTSUP : Int := 95
def FOSSIL_FIBER_EINTERNAL : Int := 199

/-- barrier.c returns raw errno EINVAL and 0 (barrier.c lines 30, 42, 62) -/
def BARRIER_EINVAL : Int := 22

/-! ## FNV-1a hashing (ghost.c lines 64-77) -/

/-- ghost.c `fossil__fnv1a64`: 64-bit FNV-1a over `data`, offset basis XORed
with `seed`; every intermediate value is reduced mod 2^64 as for `uint64_t`. -/
def fossil__fnv1a64 (data : List Nat) (seed : Nat) : Nat :=
  data.foldl (fun h b => ((h ^^^ (b % 256)) * 1099511628211) % 2 ^ 64)
    ((14695981039346656037 ^^^ seed) % 2 ^ 64)

/-- ghost.c `fossil__hash_str_mix`: hash the bytes of a NUL-terminated string
(`strlen` bytes, terminator excluded) into the accumulator. -/
def fossil__hash_str_mix (acc : Nat) (s : List Nat) : Nat :=
  fossil__fnv1a64 s acc

/-- Little-endian byte serialization of a `size_t` (8 bytes), the memory the C
code hashes when it passes `&count`/`&step_index` to `fossil__fnv1a64`. -/
def bytes8 (n : Nat) : List Nat :=
  [n % 256, n / 2 ^ 8 % 256, n / 2 ^ 16 % 256, n / 2 ^ 24 % 256,
   n / 2 ^ 32 % 256, n / 2 ^ 40 % 256, n / 2 ^ 48 % 256, n / 2 ^ 56 % 256]

/-- The C cast `(int)chosen` applied to a `uint64_t`/`size_t` value, on an
LP64 platform with 32-bit `int` (truncate, then two's complement). -/
def c_int_of_u64 (v : Nat) : Int :=
  let r : Nat := v % 2 ^ 32
  if r < 2 ^ 31 then (r : Int) else (r : Int) - 2 ^ 32

/-! ## Ghost subsystem data model (ghost.c lines 39-59, ghost.h lines 55-78) -/

/-- ghost.h `fossil_threads_ghost_candidate_t`: `data` is the opaque state
pointer (0 = NULL), `tag` the caller's NUL-terminated tag string bytes. -/
structure fossil_threads_ghost_candidate where
  data : Nat
  size : Nat
  tag : List Nat
  deriving Repr, DecidableEq, Inhabited

/-- ghost.c `fossil__ledger_entry_t`; `chosen_index = none` models the
`SIZE_MAX` sentinel, `proposal_tags = []` a NULL tags pointer. -/
structure fossil__ledger_entry where
  ghost_id : List Nat
  step_index : Nat
  proposal_present : Bool
  proposal_candidate_count : Nat
  proposal_tags : List (List Nat)
  chosen_index : Option Nat
  state_snapshot : Nat
  deriving Repr, DecidableEq, Inhabited

/-- ghost.h `fossil_threads_ghost_t`. The step function is modelled as a
deterministic map from the `arg` pointer to the produced `out_state`
pointer; `none` is a NULL `func`. -/
structure fossil_threads_ghost where
  id : List Nat
  state : Nat
  candidates : List fossil_threads_ghost_candidate
  candidate_count : Nat
  func : Option (Nat → Nat)
  arg : Nat
  finished : Bool
  step_index : Nat

instance : Inhabited fossil_threads_ghost :=
  ⟨⟨[], 0, [], 0, none, 0, false, 0⟩⟩

def FOSSIL__LEDGER_MAX : Nat := 8192
def FOSSIL__QUEUE_MAX : Nat := 512

/-- The ghost subsystem's static state (ghost.c lines 52-59) together with the
caller-owned ghost objects (`heap`); a ghost pointer is an index into `heap`.
`ledger` is newest-first; `ledger_count` is the separate static counter. -/
structure GhostSys where
  ledger : List fossil__ledger_entry
  ledger_count : Nat
  queue : List Nat
  heap : List fossil_threads_ghost

def GhostSys.empty : GhostSys := ⟨[], 0, [], []⟩

/-- ghost.c `fossil__ledger_add_entry` capacity test (line 81). -/
def fossil__ledger_full (s : GhostSys) : Bool :=
  FOSSIL__LEDGER_MAX ≤ s.ledger_count

/-- Appending the (caller-initialized) fresh entry when the ledger has room:
ghost.c line 82, `fossil__ledger[fossil__ledger_count++]`. -/
def fossil__ledger_push (s : GhostSys) (e : fossil__ledger_entry) : GhostSys :=
  { s with ledger := e :: s.ledger, ledger_count := s.ledger_count + 1 }

/-! ## Ghost operations (ghost.c lines 90-278) -/

/-- Dereference a ghost pointer (index into the caller heap). -/
def GhostSys.deref (s : GhostSys) (r : Nat) : fossil_threads_ghost :=
  s.heap.getD r default

/-- Write back through a ghost pointer. -/
def GhostSys.wr (s : GhostSys) (r : Nat) (g : fossil_threads_ghost) : GhostSys :=
  { s with heap := s.heap.set r g }

/-- ghost.c `fossil_threads_ghost_init` (lines 90-96): resets the ledger and
the queue; the caller-owned ghost objects are untouched. -/
def fossil_threads_ghost_init (s : GhostSys) : Int × GhostSys :=
  (FOSSIL_GHOST_OK, { s with ledger := [], ledger_count := 0, queue := [] })

/-- ghost.c `fossil_threads_ghost_create` (lines 98-125). `p` is the ghost
pointer, `id` the id string (`none` = NULL). On a full ledger it returns
`FOSSIL_GHOST_EINTERNAL` with the ghost already reinitialized (the memset
and field writes of lines 105-112 precede the ledger append). -/
def fossil_threads_ghost_create (p : Option Nat) (id : Option (List Nat))
    (func : Option (Nat → Nat)) (arg : Nat) (s : GhostSys) : Int × GhostSys :=
  match p, id with
  | none, _ => (FOSSIL_GHOST_EINVAL, s)
  | _, none => (FOSSIL_GHOST_EINVAL, s)
  | some r, some idStr =>
    let g : fossil_threads_ghost :=
      { id := idStr.take 63, state := 0, candidates := [], candidate_count := 0,
        func := func, arg := arg, finished := false, step_index := 0 }
    let s1 := s.wr r g
    if fossil__ledger_full s1 then (FOSSIL_GHOST_EINTERNAL, s1)
    else
      let e : fossil__ledger_entry :=
        { ghost_id := g.id, step_index := 0, proposal_present := false,
          proposal_candidate_count := 0, proposal_tags := [],
          chosen_index := none, state_snapshot := 0 }
      (FOSSIL_GHOST_OK, fossil__ledger_push s1 e)

/-- Body of `fossil_threads_ghost_propose_candidates` after the argument checks
(ghost.c lines 136-159); `mallocOk` models the `malloc` of the tag copies.
The candidate array is attached to the ghost (line 137-138) before the
ledger capacity is consulted. -/
def fossil__ghost_propose_body (g : fossil_threads_ghost)
    (candidates : List fossil_threads_ghost_candidate) (count : Nat)
    (mallocOk : Bool) (s : GhostSys) : Int × fossil_threads_ghost × GhostSys :=
  let g1 := { g with candidates := candidates, candidate_count := count }
  if fossil__ledger_full s then (FOSSIL_GHOST_EINTERNAL, g1, s)
  else
    let g2 := { g1 with step_index := g1.step_index + 1 }
    if mallocOk then
      let e : fossil__ledger_entry :=
        { ghost_id := g1.id, step_index := g2.step_index, proposal_present := true,
          proposal_candidate_count := count,
          proposal_tags := (List.range count).map
            (fun i => (candidates.getD i default).tag.take 63),
          chosen_index := none, state_snapshot := 0 }
      (FOSSIL_GHOST_OK, g2, fossil__ledger_push s e)
    else
      let e : fossil__ledger_entry :=
        { ghost_id := g1.id, step_index := g2.step_index, proposal_present := false,
          proposal_candidate_count := count, proposal_tags := [],
          chosen_index := none, state_snapshot := 0 }
      (FOSSIL_GHOST_ENOMEM, g2, fossil__ledger_push s e)

/-- ghost.c `fossil_threads_ghost_propose_candidates` (lines 129-160). -/
def fossil_threads_ghost_propose_candidates (p : Option Nat)
    (candidates : Option (List fossil_threads_ghost_candidate)) (count : Nat)
    (mallocOk : Bool) (s : GhostSys) : Int × GhostSys :=
  match p, candidates with
  | none, _ => (FOSSIL_GHOST_EINVAL, s)
  | _, none => (FOSSIL_GHOST_EINVAL, s)
  | some r, some cands =>
    if count = 0 then (FOSSIL_GHOST_EINVAL, s)
    else
      let res := fossil__ghost_propose_body (s.deref r) cands count mallocOk s
      (res.1, res.2.2.wr r res.2.1)

/-- The consensus seed of ghost.c lines 181-188: the FNV-1a chain started from
the constant `0xC0FFEE1234567890`, mixing in the global ledger count, the
entry's ghost id string, its step index, and each stored proposal tag in
order. -/
def fossil__consensus_hash (ledgerCount : Nat) (ghostId : List Nat)
    (stepIndex : Nat) (tags : List (List Nat)) : Nat :=
  tags.foldl (fun acc t => fossil__hash_str_mix acc t)
    (fossil__fnv1a64 (bytes8 stepIndex)
      (fossil__hash_str_mix
        (fossil__fnv1a64 (bytes8 ledgerCount) 0xC0FFEE1234567890) ghostId))

/-- ghost.c `fossil_threads_ghost_collapse_by_consensus` body after the NULL
check (lines 165-205). The ledger is newest-first, so the backwards scan of
lines 168-175 is `findIdx?`. The tag loop of lines 186-188 runs over
`proposal_candidate_count` entries (an out-of-range read is UB in C and
modelled as the empty string). -/
def fossil__ghost_collapse_body (g : fossil_threads_ghost) (s : GhostSys) :
    Int × fossil_threads_ghost × GhostSys :=
  if g.candidate_count = 0 then (FOSSIL_GHOST_EINVAL, g, s)
  else
    match s.ledger.findIdx? (fun e => e.ghost_id == g.id && e.proposal_present) with
    | none => (FOSSIL_GHOST_EINVAL, g, s)
    | some i =>
      let entry := s.ledger.getD i default
      let tags := (List.range entry.proposal_candidate_count).map
        (fun j => entry.proposal_tags.getD j default)
      let seed := fossil__consensus_hash s.ledger_count entry.ghost_id entry.step_index tags
      let chosen := seed % g.candidate_count
      let c := g.candidates.getD chosen default
      let g2 := { g with state := c.data, candidates := [], candidate_count := 0 }
      let entry2 := { entry with chosen_index := some chosen, state_snapshot := c.data }
      (c_int_of_u64 chosen, g2, { s with ledger := s.ledger.set i entry2 })

/-- ghost.c `fossil_threads_ghost_collapse_by_consensus` (lines 164-206). -/
def fossil_threads_ghost_collapse_by_consensus (p : Option Nat) (s : GhostSys) :
    Int × GhostSys :=
  match p with
  | none => (FOSSIL_GHOST_EINVAL, s)
  | some r =>
    let res := fossil__ghost_collapse_body (s.deref r) s
    (res.1, res.2.2.wr r res.2.1)

/-- ghost.c `fossil_threads_ghost_step` body after the NULL check (lines
210-226). The ghost's state and step index are updated before the ledger
capacity is consulted (lines 211-214 precede line 217). -/
def fossil__ghost_step_body (g : fossil_threads_ghost) (s : GhostSys) :
    Int × fossil_threads_ghost × GhostSys :=
  if g.finished then (FOSSIL_GHOST_EINVAL, g, s)
  else
    let new_state := match g.func with
      | none => 0
      | some f => f g.arg
    let g1 := { g with state := new_state, step_index := g.step_index + 1 }
    if fossil__ledger_full s then (FOSSIL_GHOST_EINTERNAL, g1, s)
    else
      let e : fossil__ledger_entry :=
        { ghost_id := g1.id, step_index := g1.step_index, proposal_present := false,
          proposal_candidate_count := 0, proposal_tags := [],
          chosen_index := none, state_snapshot := g1.state }
      (FOSSIL_GHOST_OK, g1, fossil__ledger_push s e)

/-- ghost.c `fossil_threads_ghost_step` (lines 209-227). -/
def fossil_threads_ghost_step (p : Option Nat) (s : GhostSys) : Int × GhostSys :=
  match p with
  | none => (FOSSIL_GHOST_EINVAL, s)
  | some r =>
    let res := fossil__ghost_step_body (s.deref r) s
    (res.1, res.2.2.wr r res.2.1)

/-- ghost.c `fossil_threads_ghost_queue_add` (lines 230-234): a NULL ghost and
a full queue share the single `FOSSIL_GHOST_EBUSY` return of line 231. -/
def fossil_threads_ghost_queue_add (p : Option Nat) (s : GhostSys) : Int × GhostSys :=
  match p with
  | none => (FOSSIL_GHOST_EBUSY, s)
  | some r =>
    if FOSSIL__QUEUE_MAX ≤ s.queue.length then (FOSSIL_GHOST_EBUSY, s)
    else (FOSSIL_GHOST_OK, { s with queue := s.queue ++ [r] })

/-- ghost.c `fossil_threads_ghost_schedule` (lines 236-249): one round over the
queue in insertion order (collapse/step never modify the queue); the return
codes of the per-ghost calls are dropped. -/
def fossil_threads_ghost_schedule (s : GhostSys) : Int × GhostSys :=
  if s.queue.length = 0 then (FOSSIL_GHOST_EINVAL, s)
  else
    (FOSSIL_GHOST_OK, s.queue.foldl (fun acc r =>
      let g := acc.deref r
      if g.finished then acc
      else if 0 < g.candidate_count then
        (fossil_threads_ghost_collapse_by_consensus (some r) acc).2
      else match g.func with
        | some _ => (fossil_threads_ghost_step (some r) acc).2
        | none => acc) s)

/-- ghost.c `fossil_threads_ghost_state` (lines 252-256). `outNull` says
whether the caller passed a NULL `out_state`; the returned option is the
value stored through it (`none` = nothing written). -/
def fossil_threads_ghost_state (p : Option Nat) (outNull : Bool) (s : GhostSys) :
    Int × Option Nat :=
  match p with
  | none => (FOSSIL_GHOST_EINVAL, none)
  | some r =>
    if outNull then (FOSSIL_GHOST_EINVAL, none)
    else (FOSSIL_GHOST_OK, some ((s.deref r).state))

/-- ghost.c `fossil_threads_ghost_finished` (lines 258-261): a NULL ghost is
reported as finished (return 1), not rejected with an error code. -/
def fossil_threads_ghost_finished (p : Option Nat) (s : GhostSys) : Int :=
  match p with
  | none => 1
  | some r => if (s.deref r).finished then 1 else 0

/-- ghost.c `fossil_threads_ghost_dispose` (lines 263-278): frees the ledger
tag copies of entries carrying this ghost's id and clears the ghost. -/
def fossil_threads_ghost_dispose (p : Option Nat) (s : GhostSys) : GhostSys :=
  match p with
  | none => s
  | some r =>
    let g := s.deref r
    let s1 := { s with ledger := s.ledger.map (fun (e : fossil__ledger_entry) =>
      if e.ghost_id == g.id then { e with proposal_tags := [] } else e) }
    s1.wr r { g with state := 0, func := none, arg := 0, finished := true,
                     candidate_count := 0, candidates := [] }

/-! ## Ghost call sequences (for the determinism requirement) -/

/-- One external call to the ghost API, as issued by a driver. `create r …`
uses the caller-allocated object at heap slot `r` (slots are allocated on
first use, modelling the caller's own ghost variables). -/
inductive GhostCmd where
  | init : GhostCmd
  | create (r : Nat) (id : List Nat) (func : Option (Nat → Nat)) (arg : Nat) : GhostCmd
  | propose (r : Nat) (candidates : List fossil_threads_ghost_candidate)
      (count : Nat) : GhostCmd
  | collapse (r : Nat) : GhostCmd
  | step (r : Nat) : GhostCmd
  | queueAdd (r : Nat) : GhostCmd
  | schedule : GhostCmd

/-- Grow the caller heap so that slot `r` exists. -/
def GhostSys.ensureSlot (s : GhostSys) (r : Nat) : GhostSys :=
  if r < s.heap.length then s
  else { s with heap := s.heap ++ List.replicate (r + 1 - s.heap.length) default }

def runGhostCmd (s : GhostSys) (c : GhostCmd) : Int × GhostSys :=
  match c with
  | .init => fossil_threads_ghost_init s
  | .create r id f a =>
      fossil_threads_ghost_create (some r) (some id) f a (s.ensureSlot r)
  | .propose r cands n =>
      fossil_threads_ghost_propose_candidates (some r) (some cands) n true (s.ensureSlot r)
  | .collapse r => fossil_threads_ghost_collapse_by_consensus (some r) (s.ensureSlot r)
  | .step r => fossil_threads_ghost_step (some r) (s.ensureSlot r)
  | .queueAdd r => fossil_threads_ghost_queue_add (some r) (s.ensureSlot r)
  | .schedule => fossil_threads_ghost_schedule s

/-- A complete run: `fossil_threads_ghost_init` from the pristine static state,
then the calls in order, collecting every return code. -/
def ghostRun (cmds : List GhostCmd) : GhostSys × List Int :=
  cmds.foldl (fun acc c =>
      let res := runGhostCmd acc.1 c
      (res.2, acc.2 ++ [res.1]))
    ((fossil_threads_ghost_init GhostSys.empty).2, [])

/-! ## Barrier (barrier.c). Every access to the counters happens under the
barrier's internal mutex, so each call is modelled as an atomic transition
on the counter state; the cond variable is modelled through the explicit
wait-loop condition the sleepers re-check. -/

/-- barrier.h `fossil_threads_barrier_t` counter fields (the internal mutex
and cond are the serialization mechanism, not state the algorithm reads). -/
structure fossil_threads_barrier where
  threshold : Nat
  count : Nat
  cycle : Nat
  cyclic : Bool
  destroyed : Bool
  deriving Repr, DecidableEq, Inhabited

/-- barrier.c `fossil_threads_barrier_init` (lines 29-39); `p = none` models a
NULL barrier pointer; the second component is the initialized value. -/
def fossil_threads_barrier_init (p : Option Unit) (threshold : Nat) (cyclic : Bool) :
    Int × Option fossil_threads_barrier :=
  match p with
  | none => (BARRIER_EINVAL, none)
  | some _ =>
    if threshold = 0 then (BARRIER_EINVAL, none)
    else (0, some { threshold := threshold, count := 0, cycle := 0,
                    cyclic := cyclic, destroyed := false })

/-- How a call to `fossil_threads_barrier_wait` leaves its entry section
(barrier.c lines 41-52): rejected before locking, returned immediately as
the releasing arrival (which also broadcasts), or blocked in the wait loop
remembering the generation it joined. -/
inductive BarrierWaitOutcome where
  | err (rc : Int) : BarrierWaitOutcome
  | release (rc : Int) : BarrierWaitOutcome
  | waiting (gen : Nat) : BarrierWaitOutcome
  deriving Repr, DecidableEq

/-- barrier.c `fossil_threads_barrier_wait`, entry section (lines 41-52):
NULL/destroyed check, `count` increment, and the threshold test that
increments `cycle`, resets `count` and broadcasts. -/
def fossil_threads_barrier_wait_enter (b : Option fossil_threads_barrier) :
    Option fossil_threads_barrier × BarrierWaitOutcome :=
  match b with
  | none => (none, .err BARRIER_EINVAL)
  | some bb =>
    if bb.destroyed then (some bb, .err BARRIER_EINVAL)
    else
      let cycle := bb.cycle
      if bb.count + 1 = bb.threshold then
        (some { bb with cycle := bb.cycle + 1, count := 0 }, .release 0)
      else
        (some { bb with count := bb.count + 1 }, .waiting cycle)

/-- The wait-loop condition of barrier.c lines 54-55: a sleeper that joined
generation `gen` leaves the loop exactly when the generation counter has
changed; the `destroyed` flag is not consulted. -/
def fossil_threads_barrier_wait_released (gen : Nat) (b : fossil_threads_barrier) : Bool :=
  b.cycle != gen

/-- The value `fossil_threads_barrier_wait` returns once its loop exits
(barrier.c lines 57-58). -/
def fossil_threads_barrier_wait_loop_return : Int := 0

/-- The timed wait loop of barrier.c lines 74-76 exits when the generation
changes or `fossil_threads_cond_timedwait` reports a nonzero code. -/
def fossil_threads_barrier_timed_loop_exit (gen : Nat) (b : fossil_threads_barrier)
    (condRc : Int) : Bool :=
  b.cycle != gen || condRc != 0

/-- `fossil_threads_barrier_wait_timeout` returns the last cond result once its
loop exits (barrier.c lines 78-79): 0 or the timeout/error code. -/
def fossil_threads_barrier_timed_loop_return (condRc : Int) : Int := condRc

/-- barrier.c `fossil_threads_barrier_reset` (lines 82-89). -/
def fossil_threads_barrier_reset (b : fossil_threads_barrier) : fossil_threads_barrier :=
  { b with count := 0, cycle := b.cycle + 1 }

/-- barrier.c `fossil_threads_barrier_destroy` (lines 91-99): sets `destroyed`,
broadcasts, then disposes the internal cond and mutex. Neither `count` nor
`cycle` changes. -/
def fossil_threads_barrier_destroy (b : Option fossil_threads_barrier) :
    Option fossil_threads_barrier :=
  match b with
  | none => none
  | some bb => some { bb with destroyed := true }

/-- The state transition of one arrival (entry section of `wait`). -/
def barrier_arrive (b : fossil_threads_barrier) : fossil_threads_barrier :=
  ((fossil_threads_barrier_wait_enter (some b)).1).getD b

/-- The state after `n` successive arrivals. -/
def barrier_arrivals (b : fossil_threads_barrier) : Nat → fossil_threads_barrier
  | 0 => b
  | n + 1 => barrier_arrive (barrier_arrivals b n)

/-- The outcome observed by the `(n+1)`-th arrival. -/
def barrier_outcome_at (b : fossil_threads_barrier) (n : Nat) : BarrierWaitOutcome :=
  (fossil_threads_barrier_wait_enter (some (barrier_arrivals b n))).2

/-! ## Mutex (mutex.c, POSIX branch). mutex.c writes the fields `handle`,
`valid`, `locked`, `recursive`; `handle` is modelled as a Bool (allocated
or not), OS results as explicit parameters carrying the errno value. -/

structure fossil_threads_mutex where
  handle : Bool
  valid : Bool
  locked : Bool
  recursive : Bool
  deriving Repr, DecidableEq, Inhabited

/-- mutex.c `fossil__mutex_zero` (lines 37-39) applied to a non-NULL mutex. -/
def fossil__mutex_zero : fossil_threads_mutex :=
  { handle := false, valid := false, locked := false, recursive := false }

/-- mutex.c `fossil_threads_mutex_init` (lines 43-72). `allocOk` models the
handle `malloc`, `osRc` the `pthread_mutex_init` errno result. -/
def fossil_threads_mutex_init (m : Option fossil_threads_mutex) (allocOk : Bool)
    (osRc : Nat) : Int × Option fossil_threads_mutex :=
  match m with
  | none => (FOSSIL_THREADS_MUTEX_EINVAL, none)
  | some _ =>
    if !allocOk then (FOSSIL_THREADS_MUTEX_ENOMEM, some fossil__mutex_zero)
    else if osRc ≠ 0 then
      (if osRc = 12 then FOSSIL_THREADS_MUTEX_ENOMEM
       else if osRc = 1 then FOSSIL_THREADS_MUTEX_EPERM
       else FOSSIL_THREADS_MUTEX_EINTERNAL, some fossil__mutex_zero)
    else (FOSSIL_THREADS_MUTEX_OK,
      some { handle := true, valid := true, locked := false, recursive := false })

/-- mutex.c `fossil_threads_mutex_dispose` (lines 74-92): returns untouched
unless the mutex is non-NULL and `valid`; otherwise frees the handle and
zeroes the record. -/
def fossil_threads_mutex_dispose (m : Option fossil_threads_mutex) :
    Option fossil_threads_mutex :=
  match m with
  | none => none
  | some mm => if !mm.valid then some mm else some fossil__mutex_zero

/-- mutex.c `fossil_threads_mutex_lock` (lines 96-117); `osRc` is the
`pthread_mutex_lock` errno result. -/
def fossil_threads_mutex_lock (m : Option fossil_threads_mutex) (osRc : Nat) :
    Int × Option fossil_threads_mutex :=
  match m with
  | none => (FOSSIL_THREADS_MUTEX_EINVAL, none)
  | some mm =>
    if !mm.valid then (FOSSIL_THREADS_MUTEX_EINVAL, some mm)
    else if osRc = 0 then (FOSSIL_THREADS_MUTEX_OK, some { mm with locked := true })
    else if osRc = 22 then (FOSSIL_THREADS_MUTEX_EINVAL, some mm)
    else if osRc = 35 then (FOSSIL_THREADS_MUTEX_EDEADLK, some mm)
    else if osRc = 1 then (FOSSIL_THREADS_MUTEX_EPERM, some mm)
    else (FOSSIL_THREADS_MUTEX_EINTERNAL, some mm)

/-- mutex.c `fossil_threads_mutex_unlock` (lines 119-138). -/
def fossil_threads_mutex_unlock (m : Option fossil_threads_mutex) (osRc : Nat) :
    Int × Option fossil_threads_mutex :=
  match m with
  | none => (FOSSIL_THREADS_MUTEX_EINVAL, none)
  | some mm =>
    if !mm.valid then (FOSSIL_THREADS_MUTEX_EINVAL, some mm)
    else if osRc = 0 then (FOSSIL_THREADS_MUTEX_OK, some { mm with locked := false })
    else if osRc = 22 then (FOSSIL_THREADS_MUTEX_EINVAL, some mm)
    else if osRc = 1 then (FOSSIL_THREADS_MUTEX_EUNLOCK, some mm)
    else (FOSSIL_THREADS_MUTEX_EINTERNAL, some mm)

/-- mutex.c `fossil_threads_mutex_trylock` (lines 140-164). -/
def fossil_threads_mutex_trylock (m : Option fossil_threads_mutex) (osRc : Nat) :
    Int × Option fossil_threads_mutex :=
  match m with
  | none => (FOSSIL_THREADS_MUTEX_EINVAL, none)
  | some mm =>
    if !mm.valid then (FOSSIL_THREADS_MUTEX_EINVAL, some mm)
    else if osRc = 0 then (FOSSIL_THREADS_MUTEX_OK, some { mm with locked := true })
    else if osRc = 16 then (FOSSIL_THREADS_MUTEX_EBUSY, some mm)
    else if osRc = 22 then (FOSSIL_THREADS_MUTEX_EINVAL, some mm)
    else if osRc = 1 then (FOSSIL_THREADS_MUTEX_EPERM, some mm)
    else (FOSSIL_THREADS_MUTEX_EINTERNAL, some mm)

/-! ## Thread lifecycle (thread.c, POSIX branch). Only the fields the
lifecycle operations read or write are modelled; ids, return values and
OS results are abstracted by explicit parameters. -/

structure fossil_threads_thread where
  handle : Bool
  id : Nat
  retval : Nat
  joinable : Bool
  started : Bool
  finished : Bool
  deriving Repr, DecidableEq, Inhabited

/-- thread.c `fossil__thread_zero` (lines 67-69) applied to a non-NULL
thread. -/
def fossil__thread_zero : fossil_threads_thread :=
  { handle := false, id := 0, retval := 0, joinable := false,
    started := false, finished := false }

/-- thread.c `fossil_threads_thread_create` (lines 273-312). `funcNull` is a
NULL `func` argument; `ctxOk`/`pthOk` are the two mallocs, `osOk` the
`pthread_create` call; `newId` abstracts the id bytes copied from the new
`pthread_t`. The `started`/`BUSY` check precedes everything else but the
NULL checks. -/
def fossil_threads_thread_create (t : Option fossil_threads_thread)
    (funcNull : Bool) (ctxOk pthOk osOk : Bool) (newId : Nat) :
    Int × Option fossil_threads_thread :=
  match t with
  | none => (FOSSIL_THREADS_EINVAL, none)
  | some tt =>
    if funcNull then (FOSSIL_THREADS_EINVAL, some tt)
    else if tt.started then (FOSSIL_THREADS_EBUSY, some tt)
    else if !ctxOk then (FOSSIL_THREADS_ENOMEM, some fossil__thread_zero)
    else if !pthOk then (FOSSIL_THREADS_ENOMEM, some fossil__thread_zero)
    else if !osOk then (FOSSIL_THREADS_EINTERNAL, some fossil__thread_zero)
    else (FOSSIL_THREADS_OK,
      some { handle := true, id := newId, retval := 0, joinable := true,
             started := true, finished := false })

/-- thread.c `fossil_threads_thread_join` (lines 314-338). `osOk` is the
`pthread_join` result, `ret` the value it delivers; the third component is
the value stored through a non-NULL `retval` out-pointer. -/
def fossil_threads_thread_join (t : Option fossil_threads_thread)
    (osOk : Bool) (ret : Nat) : Int × Option fossil_threads_thread × Option Nat :=
  match t with
  | none => (FOSSIL_THREADS_EINVAL, none, none)
  | some tt =>
    if !tt.started then (FOSSIL_THREADS_ENOTSTARTED, some tt, none)
    else if !tt.joinable then (FOSSIL_THREADS_EDETACHED, some tt, none)
    else if !tt.handle then (FOSSIL_THREADS_EINTERNAL, some tt, none)
    else if !osOk then (FOSSIL_THREADS_EINTERNAL, some tt, none)
    else (FOSSIL_THREADS_OK,
      some { tt with handle := false, joinable := false, finished := true },
      some (if ret ≠ 0 then ret else tt.retval))

/-- thread.c `fossil_threads_thread_detach` (lines 340-352). -/
def fossil_threads_thread_detach (t : Option fossil_threads_thread) :
    Int × Option fossil_threads_thread :=
  match t with
  | none => (FOSSIL_THREADS_EINVAL, none)
  | some tt =>
    if !tt.started then (FOSSIL_THREADS_EINVAL, some tt)
    else if !tt.joinable then (FOSSIL_THREADS_EDETACHED, some tt)
    else if !tt.handle then (FOSSIL_THREADS_EINTERNAL, some tt)
    else (FOSSIL_THREADS_OK, some { tt with handle := false, joinable := false })

/-! ## Concrete instances used to instantiate the theorems -/

/-- Three candidates with tags "A", "B", "C" and data pointers 1, 2, 3
(the spec's Scenario C). -/
def c1cands : List fossil_threads_ghost_candidate :=
  [⟨1, 0, [65]⟩, ⟨2, 0, [66]⟩, ⟨3, 0, [67]⟩]

/-- System after `init`; `create(ghost0, "n", NULL, NULL)`;
`propose_candidates(ghost0, c1cands, 3)`. -/
def c1sys : GhostSys :=
  (ghostRun [.create 0 [110] none 0, .propose 0 c1cands 3]).1

def c1ghost : fossil_threads_ghost := c1sys.deref 0

/-- The proposal ledger entry recorded by the `propose_candidates` above. -/
def c1entry : fossil__ledger_entry :=
  { ghost_id := [110], step_index := 1, proposal_present := true,
    proposal_candidate_count := 3, proposal_tags := [[65], [66], [67]],
    chosen_index := none, state_snapshot := 0 }

/-- A ledger entry as recorded by a completed step of a ghost with id "g". -/
def c4entry : fossil__ledger_entry :=
  { ghost_id := [103], step_index := 1, proposal_present := false,
    proposal_candidate_count := 0, proposal_tags := [], chosen_index := none,
    state_snapshot := 0 }

/-- A ghost mid-execution: id "g", five steps done, current state pointer 7. -/
def c4ghost : fossil_threads_ghost :=
  { id := [103], state := 7, candidates := [], candidate_count := 0,
    func := none, arg := 0, finished := false, step_index := 5 }

/-- A system whose global ledger has reached the 8192-entry capacity (as after
8192 recorded operations). -/
def c4sys : GhostSys :=
  { ledger := List.replicate FOSSIL__LEDGER_MAX c4entry,
    ledger_count := FOSSIL__LEDGER_MAX, queue := [], heap := [c4ghost] }

/-- A freshly initialized cyclic barrier of threshold 3. -/
def bFix : fossil_threads_barrier :=
  { threshold := 3, count := 0, cycle := 0, cyclic := true, destroyed := false }

/-- A thread after a successful create: started, joinable, running. -/
def tStarted : fossil_threads_thread :=
  { handle := true, id := 1, retval := 0, joinable := false, started := true,
    finished := false }

/-- A started, joinable thread (before join or detach). -/
def tJoinable : fossil_threads_thread :=
  { handle := true, id := 1, retval := 0, joinable := true, started := true,
    finished := false }

/-! ## Theorems -/

/-- C7 counterexample: the thread component's internal-error code is 250, not
the 199 the claim asserts uniformly. -/
theorem thread_internal_code_is_250 :
    FOSSIL_THREADS_EINTERNAL = 250 ∧ FOSSIL_THREADS_EINTERNAL ≠ 199 := by
  decide

/-- C7 (amended): the public error-code constants have the claimed integer
values in the ghost, mutex, cond and fiber enumerations and for all listed
thread codes except INTERNAL, which the thread enumeration defines as 250
(ghost, mutex, cond and fiber use 199). -/
theorem error_code_values :
    FOSSIL_THREADS_OK = 0 ∧ FOSSIL_THREADS_EPERM = 1 ∧
    FOSSIL_THREADS_ENOMEM = 12 ∧ FOSSIL_THREADS_EBUSY = 16 ∧
    FOSSIL_THREADS_EINVAL = 22 ∧ FOSSIL_THREADS_EDEADLK = 35 ∧
    FOSSIL_THREADS_EAGAIN = 11 ∧ FOSSIL_THREADS_ENOSYS = 38 ∧
    FOSSIL_THREADS_ETIMEDOUT = 110 ∧ FOSSIL_THREADS_ENOTSTARTED = 201 ∧
    FOSSIL_THREADS_EFINISHED = 202 ∧ FOSSIL_THREADS_EJOINED = 203 ∧
    FOSSIL_THREADS_EDETACHED = 204 ∧ FOSSIL_THREADS_ECANCELLED = 205 ∧
    FOSSIL_THREADS_ESTATE = 206 ∧ FOSSIL_THREADS_EINTERNAL = 250 ∧
    FOSSIL_GHOST_OK = 0 ∧ FOSSIL_GHOST_EINVAL = 22 ∧ FOSSIL_GHOST_ENOMEM = 12 ∧
    FOSSIL_GHOST_EBUSY = 16 ∧ FOSSIL_GHOST_ENOTSUP = 95 ∧
    FOSSIL_GHOST_EINTERNAL = 199 ∧
    FOSSIL_THREADS_MUTEX_OK = 0 ∧ FOSSIL_THREADS_MUTEX_EINVAL = 22 ∧
    FOSSIL_THREADS_MUTEX_EBUSY = 16 ∧ FOSSIL_THREADS_MUTEX_EINTERNAL = 199 ∧
    FOSSIL_THREADS_COND_OK = 0 ∧ FOSSIL_THREADS_COND_EINVAL = 22 ∧
    FOSSIL_THREADS_COND_ETIMEDOUT = 110 ∧ FOSSIL_THREADS_COND_EINTERNAL = 199 ∧
    FOSSIL_THREADS_COND_ENOMEM = 12 ∧ FOSSIL_THREADS_COND_EBUSY = 16 ∧
    FOSSIL_THREADS_COND_EPERM = 1 ∧ FOSSIL_THREADS_COND_EDEADLK = 35 ∧
    FOSSIL_THREADS_COND_EAGAIN = 11 ∧ FOSSIL_THREADS_COND_ENOSYS = 38 ∧
    FOSSIL_FIBER_ENOTSUP = 95 ∧ FOSSIL_FIBER_EINTERNAL = 199 := by
  decide

/-- C9: `fossil_threads_mutex_dispose` on a zeroed or already-disposed
(non-`valid`) mutex leaves the value unchanged, in particular on the
all-zero value, and dispose after dispose equals a single dispose. -/
theorem mutex_dispose_noop_idempotent :
    (∀ m : fossil_threads_mutex, m.valid = false →
      fossil_threads_mutex_dispose (some m) = some m) ∧
    fossil_threads_mutex_dispose (some fossil__mutex_zero) = some fossil__mutex_zero ∧
    (∀ m : Option fossil_threads_mutex,
      fossil_threads_mutex_dispose (fossil_threads_mutex_dispose m) =
        fossil_threads_mutex_dispose m) := by
  refine ⟨?_, by decide, ?_⟩
  · intro m h
    simp [fossil_threads_mutex_dispose, h]
  · intro m
    match m with
    | none => rfl
    | some mm =>
      by_cases h : mm.valid
      · simp [fossil_threads_mutex_dispose, h, fossil__mutex_zero]
      · simp [fossil_threads_mutex_dispose, h]

theorem mutex_dispose_noop_idempotent_witness :
    fossil__mutex_zero.valid = false ∧
    fossil_threads_mutex_dispose (some fossil__mutex_zero) = some fossil__mutex_zero :=
  ⟨by decide, mutex_dispose_noop_idempotent.1 fossil__mutex_zero (by decide)⟩

/-- C10: `fossil_threads_ghost_finished` on a NULL ghost returns 1 (reported
as finished), while `fossil_threads_ghost_state` on a NULL ghost rejects
with `FOSSIL_GHOST_EINVAL`. -/
theorem ghost_finished_null_is_one :
    (∀ s : GhostSys, fossil_threads_ghost_finished none s = 1) ∧
    (1 : Int) ≠ FOSSIL_GHOST_EINVAL ∧
    (∀ (s : GhostSys) (outNull : Bool),
      fossil_threads_ghost_state none outNull s = (FOSSIL_GHOST_EINVAL, none)) :=
  ⟨fun _ => rfl, by decide, fun _ _ => rfl⟩

/-- C8 counterexample: `fossil_threads_ghost_queue_add(NULL)` returns
`FOSSIL_GHOST_EBUSY` (16), not `INVALID_ARG` (22). -/
theorem ghost_queue_add_null_returns_busy :
    fossil_threads_ghost_queue_add none GhostSys.empty =
      (FOSSIL_GHOST_EBUSY, GhostSys.empty) ∧
    FOSSIL_GHOST_EBUSY ≠ FOSSIL_GHOST_EINVAL :=
  ⟨rfl, by decide⟩

/-- C8 (amended): every embedded public operation given a NULL required
argument returns `INVALID_ARG` (22) and leaves all library state unchanged,
except `fossil_threads_ghost_queue_add`, which returns `FOSSIL_GHOST_EBUSY`
(16, also without side effects), and `fossil_threads_ghost_finished`, which
returns 1. -/
theorem null_argument_handling :
    (∀ f a s, fossil_threads_ghost_create none (some []) f a s = (FOSSIL_GHOST_EINVAL, s)) ∧
    (∀ p f a s, fossil_threads_ghost_create p none f a s = (FOSSIL_GHOST_EINVAL, s)) ∧
    (∀ n mk s, fossil_threads_ghost_propose_candidates none (some []) n mk s =
      (FOSSIL_GHOST_EINVAL, s)) ∧
    (∀ p n mk s, fossil_threads_ghost_propose_candidates p none n mk s =
      (FOSSIL_GHOST_EINVAL, s)) ∧
    (∀ s, fossil_threads_ghost_collapse_by_consensus none s = (FOSSIL_GHOST_EINVAL, s)) ∧
    (∀ s, fossil_threads_ghost_step none s = (FOSSIL_GHOST_EINVAL, s)) ∧
    (∀ outNull s, fossil_threads_ghost_state none outNull s = (FOSSIL_GHOST_EINVAL, none)) ∧
    (∀ s, fossil_threads_ghost_queue_add none s = (FOSSIL_GHOST_EBUSY, s)) ∧
    (∀ s, fossil_threads_ghost_finished none s = 1) ∧
    (∀ s, fossil_threads_ghost_dispose none s = s) ∧
    (∀ ok rc, fossil_threads_mutex_init none ok rc = (FOSSIL_THREADS_MUTEX_EINVAL, none)) ∧
    (∀ rc, fossil_threads_mutex_lock none rc = (FOSSIL_THREADS_MUTEX_EINVAL, none)) ∧
    (∀ rc, fossil_threads_mutex_unlock none rc = (FOSSIL_THREADS_MUTEX_EINVAL, none)) ∧
    (∀ rc, fossil_threads_mutex_trylock none rc = (FOSSIL_THREADS_MUTEX_EINVAL, none)) ∧
    fossil_threads_mutex_dispose none = none ∧
    (∀ n c, fossil_threads_barrier_init none n c = (BARRIER_EINVAL, none)) ∧
    fossil_threads_barrier_wait_enter none = (none, .err BARRIER_EINVAL) ∧
    fossil_threads_barrier_destroy none = none ∧
    (∀ fn c p o i, fossil_threads_thread_create none fn c p o i = (FOSSIL_THREADS_EINVAL, none)) ∧
    (∀ ok r, fossil_threads_thread_join none ok r = (FOSSIL_THREADS_EINVAL, none, none)) ∧
    fossil_threads_thread_detach none = (FOSSIL_THREADS_EINVAL, none) := by
  refine ⟨fun _ _ _ => rfl, ?_, fun _ _ _ => rfl, ?_, fun _ => rfl, fun _ => rfl,
    fun _ _ => rfl, fun _ => rfl, fun _ => rfl, fun _ => rfl, fun _ _ => rfl,
    fun _ => rfl, fun _ => rfl, fun _ => rfl, rfl, fun _ _ => rfl, rfl, rfl,
    fun _ _ _ _ _ => rfl, fun _ _ => rfl, rfl⟩
  · intro p f a s
    match p with
    | none => rfl
    | some _ => rfl
  · intro p n mk s
    match p with
    | none => rfl
    | some _ => rfl

/-- C6: the thread lifecycle state errors — create on a started thread returns
BUSY; join on a never-started thread returns NOT_STARTED; join on a
non-joinable (detached or already-joined) thread returns DETACHED; detach on
an already-detached thread returns DETACHED; and both a successful join and
a successful detach leave `joinable = false`, so the already-joined and
detached cases coincide. -/
theorem thread_lifecycle_state_errors :
    (∀ t c p o i, t.started = true →
      (fossil_threads_thread_create (some t) false c p o i).1 = FOSSIL_THREADS_EBUSY) ∧
    (∀ t o r, t.started = false →
      (fossil_threads_thread_join (some t) o r).1 = FOSSIL_THREADS_ENOTSTARTED) ∧
    (∀ t o r, t.started = true → t.joinable = false →
      (fossil_threads_thread_join (some t) o r).1 = FOSSIL_THREADS_EDETACHED) ∧
    (∀ t, t.started = true → t.joinable = false →
      (fossil_threads_thread_detach (some t)).1 = FOSSIL_THREADS_EDETACHED) ∧
    (∀ t r, t.started = true → t.joinable = true → t.handle = true →
      fossil_threads_thread_join (some t) true r =
        (FOSSIL_THREADS_OK,
         some { t with handle := false, joinable := false, finished := true },
         some (if r ≠ 0 then r else t.retval))) ∧
    (∀ t, t.started = true → t.joinable = true → t.handle = true →
      fossil_threads_thread_detach (some t) =
        (FOSSIL_THREADS_OK, some { t with handle := false, joinable := false })) := by
  refine ⟨?_, ?_, ?_, ?_, ?_, ?_⟩
  · intro t c p o i h
    simp [fossil_threads_thread_create, h]
  · intro t o r h
    simp [fossil_threads_thread_join, h]
  · intro t o r h1 h2
    simp [fossil_threads_thread_join, h1, h2]
  · intro t h1 h2
    simp [fossil_threads_thread_detach, h1, h2]
  · intro t r h1 h2 h3
    simp [fossil_threads_thread_join, h1, h2, h3]
  · intro t h1 h2 h3
    simp [fossil_threads_thread_detach, h1, h2, h3]

theorem thread_lifecycle_state_errors_witness :
    tStarted.started = true ∧ tStarted.joinable = false ∧
    fossil__thread_zero.started = false ∧
    (fossil_threads_thread_create (some tStarted) false true true true 7).1 =
      FOSSIL_THREADS_EBUSY ∧
    (fossil_threads_thread_join (some fossil__thread_zero) true 0).1 =
      FOSSIL_THREADS_ENOTSTARTED ∧
    (fossil_threads_thread_join (some tStarted) true 0).1 = FOSSIL_THREADS_EDETACHED ∧
    (fossil_threads_thread_detach (some tStarted)).1 = FOSSIL_THREADS_EDETACHED :=
  ⟨by decide, by decide, by decide,
   thread_lifecycle_state_errors.1 tStarted true true true 7 (by decide),
   thread_lifecycle_state_errors.2.1 fossil__thread_zero true 0 (by decide),
   thread_lifecycle_state_errors.2.2.1 tStarted true 0 (by decide) (by decide),
   thread_lifecycle_state_errors.2.2.2.1 tStarted (by decide) (by decide)⟩

/-- C2: determinism of the ghost subsystem as a two-run equality — two runs
that start with `fossil_threads_ghost_init` and perform identical
create/propose/step/schedule/collapse sequences (identical ids, tags and
arguments) produce identical ledgers and identical return codes for every
call, collapse calls included. In the embedding the whole subsystem is a
pure function of the call sequence, so no hidden input (time, addresses,
scheduling) can differentiate the runs. -/
theorem ghost_two_run_determinism (cmds1 cmds2 : List GhostCmd)
    (h : cmds1 = cmds2) :
    (ghostRun cmds1).1.ledger = (ghostRun cmds2).1.ledger ∧
    (ghostRun cmds1).2 = (ghostRun cmds2).2 := by
  subst h
  exact ⟨rfl, rfl⟩

theorem ghost_two_run_determinism_witness :
    ([GhostCmd.create 0 [110] none 0, .propose 0 c1cands 3, .collapse 0] =
      [GhostCmd.create 0 [110] none 0, .propose 0 c1cands 3, .collapse 0]) ∧
    (ghostRun [.create 0 [110] none 0, .propose 0 c1cands 3, .collapse 0]).1.ledger =
      (ghostRun [.create 0 [110] none 0, .propose 0 c1cands 3, .collapse 0]).1.ledger ∧
    (ghostRun [.create 0 [110] none 0, .propose 0 c1cands 3, .collapse 0]).2 =
      (ghostRun [.create 0 [110] none 0, .propose 0 c1cands 3, .collapse 0]).2 :=
  ⟨rfl, ghost_two_run_determinism
    [.create 0 [110] none 0, .propose 0 c1cands 3, .collapse 0]
    [.create 0 [110] none 0, .propose 0 c1cands 3, .collapse 0] rfl⟩

/-- C3 counterexample: a barrier of threshold 2 with one waiter blocked at
generation 0 is destroyed; the destroyed flag is set, yet the waiter's
wait-loop condition (barrier.c lines 54-55, which re-checks only the
generation counter) still holds it blocked, and the loop's eventual return
value is 0 (OK), not `INVALID_ARG` — refuting the claim that such a waiter
stops waiting and returns `INVALID_ARG`. -/
theorem barrier_destroy_leaves_waiter_blocked :
    (fossil_threads_barrier_init (some ()) 2 true).2 =
      some { threshold := 2, count := 0, cycle := 0, cyclic := true,
             destroyed := false } ∧
    (fossil_threads_barrier_wait_enter
      (fossil_threads_barrier_init (some ()) 2 true).2).2 =
      .waiting 0 ∧
    fossil_threads_barrier_destroy
      (fossil_threads_barrier_wait_enter
        (fossil_threads_barrier_init (some ()) 2 true).2).1 =
      some { threshold := 2, count := 1, cycle := 0, cyclic := true,
             destroyed := true } ∧
    fossil_threads_barrier_wait_released 0
      { threshold := 2, count := 1, cycle := 0, cyclic := true,
        destroyed := true } = false ∧
    fossil_threads_barrier_wait_loop_return = 0 ∧
    (0 : Int) ≠ BARRIER_EINVAL := by
  decide

/-- C3 (amended): the wait loops of `fossil_threads_barrier_wait` and
`fossil_threads_barrier_wait_timeout` re-check only the generation counter
(and, for the timed variant, the cond result); the `destroyed` flag does not
influence them, so a waiter blocked when `fossil_threads_barrier_destroy`
runs is not released by it and, whenever the plain wait loop does exit, it
returns OK (0), never `INVALID_ARG`. Only a call that enters `wait` after
destruction observes `destroyed` and returns `INVALID_ARG`. -/
theorem barrier_wait_ignores_destroyed :
    (∀ gen b, fossil_threads_barrier_wait_released gen { b with destroyed := true } =
      fossil_threads_barrier_wait_released gen b) ∧
    (∀ gen b, fossil_threads_barrier_wait_released gen b = true ↔ b.cycle ≠ gen) ∧
    fossil_threads_barrier_wait_loop_return = 0 ∧
    (∀ gen b rc, fossil_threads_barrier_timed_loop_exit gen
      { b with destroyed := true } rc =
      fossil_threads_barrier_timed_loop_exit gen b rc) ∧
    (∀ bb, bb.destroyed = true →
      fossil_threads_barrier_wait_enter (some bb) = (some bb, .err BARRIER_EINVAL)) := by
  refine ⟨fun gen b => rfl, ?_, rfl, fun gen b rc => rfl, ?_⟩
  · intro gen b
    simp [fossil_threads_barrier_wait_released]
  · intro bb h
    simp [fossil_threads_barrier_wait_enter, h]

theorem barrier_wait_ignores_destroyed_witness :
    ({ threshold := 2, count := 1, cycle := 0, cyclic := true,
       destroyed := true } : fossil_threads_barrier).destroyed = true ∧
    fossil_threads_barrier_wait_enter
      (some { threshold := 2, count := 1, cycle := 0, cyclic := true,
              destroyed := true }) =
      (some { threshold := 2, count := 1, cycle := 0, cyclic := true,
              destroyed := true }, .err BARRIER_EINVAL) :=
  ⟨by decide, barrier_wait_ignores_destroyed.2.2.2.2
    { threshold := 2, count := 1, cycle := 0, cyclic := true, destroyed := true }
    (by decide)⟩

/-- C4 counterexample: on the full 8192-entry ledger, `fossil_threads_ghost_step`
returns the ledger-full error but has already overwritten `ghost->state`
(7 becomes 0, the NULL-func output) and incremented `ghost->step_index`
(5 becomes 6); `fossil_threads_ghost_propose_candidates` returns the error
with the candidate array still attached — the ghost's logical state is not
left unchanged. -/
theorem ghost_ledger_full_modifies_ghost :
    (fossil_threads_ghost_step (some 0) c4sys).1 = FOSSIL_GHOST_EINTERNAL ∧
    ((fossil_threads_ghost_step (some 0) c4sys).2.deref 0).step_index = 6 ∧
    ((fossil_threads_ghost_step (some 0) c4sys).2.deref 0).state = 0 ∧
    c4ghost.step_index = 5 ∧ c4ghost.state = 7 ∧
    (fossil_threads_ghost_propose_candidates (some 0)
      (some [⟨11, 0, [65]⟩]) 1 true c4sys).1 = FOSSIL_GHOST_EINTERNAL ∧
    ((fossil_threads_ghost_propose_candidates (some 0)
      (some [⟨11, 0, [65]⟩]) 1 true c4sys).2.deref 0).candidate_count = 1 ∧
    c4ghost.candidate_count = 0 := by
  decide

/-- C4 (amended): when the global ledger is full, step and
propose_candidates report the failure as `FOSSIL_GHOST_EINTERNAL` and leave
the ledger and queue unchanged, but the ghost has already been modified
before the capacity check: step has invoked `func`, stored its output in
`ghost->state` and incremented `ghost->step_index`; propose_candidates has
attached the candidate array and count (its `step_index` increment, which
follows the ledger append, does not happen). -/
theorem ghost_ledger_full_error_reporting (g : fossil_threads_ghost) (s : GhostSys)
    (hfull : fossil__ledger_full s = true) (hfin : g.finished = false) :
    (fossil__ghost_step_body g s).1 = FOSSIL_GHOST_EINTERNAL ∧
    (fossil__ghost_step_body g s).2.2 = s ∧
    (fossil__ghost_step_body g s).2.1 =
      { g with state := (match g.func with | none => 0 | some f => f g.arg),
               step_index := g.step_index + 1 } ∧
    (∀ cands count mk,
      (fossil__ghost_propose_body g cands count mk s).1 = FOSSIL_GHOST_EINTERNAL ∧
      (fossil__ghost_propose_body g cands count mk s).2.2 = s ∧
      (fossil__ghost_propose_body g cands count mk s).2.1 =
        { g with candidates := cands, candidate_count := count }) := by
  refine ⟨?_, ?_, ?_, ?_⟩
  · simp [fossil__ghost_step_body, hfin, hfull]
  · simp [fossil__ghost_step_body, hfin, hfull]
  · simp [fossil__ghost_step_body, hfin, hfull]
  · intro cands count mk
    refine ⟨?_, ?_, ?_⟩ <;> simp [fossil__ghost_propose_body, hfull]

theorem ghost_ledger_full_error_reporting_witness :
    fossil__ledger_full c4sys = true ∧ c4ghost.finished = false ∧
    (fossil__ghost_step_body c4ghost c4sys).1 = FOSSIL_GHOST_EINTERNAL ∧
    (fossil__ghost_step_body c4ghost c4sys).2.2 = c4sys ∧
    (fossil__ghost_step_body c4ghost c4sys).2.1 =
      { c4ghost with
        state := (match c4ghost.func with | none => 0 | some f => f c4ghost.arg),
        step_index := c4ghost.step_index + 1 } ∧
    ((fossil__ghost_propose_body c4ghost [⟨11, 0, [65]⟩] 1 true c4sys).1 =
        FOSSIL_GHOST_EINTERNAL ∧
      (fossil__ghost_propose_body c4ghost [⟨11, 0, [65]⟩] 1 true c4sys).2.2 = c4sys ∧
      (fossil__ghost_propose_body c4ghost [⟨11, 0, [65]⟩] 1 true c4sys).2.1 =
        { c4ghost with candidates := [⟨11, 0, [65]⟩], candidate_count := 1 }) :=
  ⟨by decide, by decide,
    (ghost_ledger_full_error_reporting c4ghost c4sys (by decide) (by decide)).1,
    (ghost_ledger_full_error_reporting c4ghost c4sys (by decide) (by decide)).2.1,
    (ghost_ledger_full_error_reporting c4ghost c4sys (by decide) (by decide)).2.2.1,
    (ghost_ledger_full_error_reporting c4ghost c4sys (by decide)
      (by decide)).2.2.2 [⟨11, 0, [65]⟩] 1 true⟩

/-! ### Shared helper lemmas -/

theorem c_int_of_u64_small (v : Nat) (h : v < 2 ^ 31) : c_int_of_u64 v = (v : Int) := by
  simp only [c_int_of_u64]
  have h32 : v % 2 ^ 32 = v := Nat.mod_eq_of_lt (by omega)
  rw [h32, if_pos h]

theorem range_map_getD_eq (tags : List (List Nat)) :
    (List.range tags.length).map (fun j => tags.getD j default) = tags := by
  induction tags with
  | nil => rfl
  | cons t ts ih =>
    have hf : ((fun j => (t :: ts).getD j default) ∘ Nat.succ) =
        (fun j => ts.getD j default) := funext fun j => by
      simp [Function.comp, List.getD_cons_succ]
    simp only [List.length_cons, List.range_succ_eq_map, List.map_cons, List.map_map,
      List.getD_cons_zero, hf, ih]

theorem barrier_arrive_eq (b : fossil_threads_barrier) (hd : b.destroyed = false) :
    barrier_arrive b = if b.count + 1 = b.threshold
      then { b with cycle := b.cycle + 1, count := 0 }
      else { b with count := b.count + 1 } := by
  by_cases h : b.count + 1 = b.threshold <;>
    simp [barrier_arrive, fossil_threads_barrier_wait_enter, hd, h]

theorem barrier_arrivals_below (b : fossil_threads_barrier) (hd : b.destroyed = false)
    (hc : b.count = 0) :
    ∀ j, j < b.threshold → barrier_arrivals b j = { b with count := j } := by
  intro j
  induction j with
  | zero =>
    intro _
    cases b
    simp_all [barrier_arrivals]
  | succ n ih =>
    intro hj
    have hn : n < b.threshold := Nat.lt_of_succ_lt hj
    have harr := ih hn
    have hne : ¬(n + 1 = b.threshold) := Nat.ne_of_lt hj
    show barrier_arrive (barrier_arrivals b n) = _
    rw [harr, barrier_arrive_eq _ (by simpa using hd)]
    simp [hne]

theorem barrier_round (b : fossil_threads_barrier) (hd : b.destroyed = false)
    (hc : b.count = 0) (h1 : 1 ≤ b.threshold) :
    barrier_arrivals b b.threshold = { b with cycle := b.cycle + 1, count := 0 } := by
  obtain ⟨N, hN⟩ : ∃ N, b.threshold = N + 1 := ⟨b.threshold - 1, by omega⟩
  have hlt : N < b.threshold := by omega
  have harr := barrier_arrivals_below b hd hc N hlt
  rw [hN]
  show barrier_arrive (barrier_arrivals b N) = _
  rw [harr, barrier_arrive_eq _ (by simpa using hd)]
  have heq : N + 1 = b.threshold := by omega
  simp [heq]

theorem barrier_arrivals_add (b : fossil_threads_barrier) (m n : Nat) :
    barrier_arrivals b (m + n) = barrier_arrivals (barrier_arrivals b m) n := by
  induction n with
  | zero => rfl
  | succ k ih =>
    show barrier_arrive (barrier_arrivals b (m + k)) = _
    rw [ih]
    rfl

theorem barrier_rounds (b : fossil_threads_barrier) (k : Nat) (hd : b.destroyed = false)
    (hc : b.count = 0) (h1 : 1 ≤ b.threshold) :
    barrier_arrivals b (k * b.threshold) = { b with cycle := b.cycle + k, count := 0 } := by
  induction k with
  | zero =>
    cases b
    simp_all [barrier_arrivals]
  | succ k ih =>
    have hmul : (k + 1) * b.threshold = k * b.threshold + b.threshold := by ring
    rw [hmul, barrier_arrivals_add, ih]
    have hr := barrier_round { b with cycle := b.cycle + k, count := 0 }
      (by simpa using hd) rfl (by simpa using h1)
    rw [hr]
    simp [Nat.add_assoc]

theorem barrier_count_invariant (b : fossil_threads_barrier)
    (h : b.count < b.threshold) : (barrier_arrive b).count < b.threshold := by
  by_cases hd : b.destroyed
  · simpa [barrier_arrive, fossil_threads_barrier_wait_enter, hd] using h
  · rw [barrier_arrive_eq b (by simpa using hd)]
    by_cases hth : b.count + 1 = b.threshold
    · rw [if_pos hth]
      show 0 < b.threshold
      omega
    · rw [if_neg hth]
      show b.count + 1 < b.threshold
      omega

theorem barrier_outcome_waiting (b : fossil_threads_barrier) (hd : b.destroyed = false)
    (hc : b.count = 0) (j : Nat) (hj : j + 1 < b.threshold) :
    barrier_outcome_at b j = .waiting b.cycle := by
  have harr := barrier_arrivals_below b hd hc j (by omega)
  have hne : ¬(j + 1 = b.threshold) := by omega
  simp [barrier_outcome_at, harr, fossil_threads_barrier_wait_enter, hd, hne]

theorem barrier_outcome_release (b : fossil_threads_barrier) (hd : b.destroyed = false)
    (hc : b.count = 0) (h1 : 1 ≤ b.threshold) :
    barrier_outcome_at b (b.threshold - 1) = .release 0 := by
  have harr := barrier_arrivals_below b hd hc (b.threshold - 1) (by omega)
  have heq : (b.threshold - 1) + 1 = b.threshold := by omega
  simp [barrier_outcome_at, harr, fossil_threads_barrier_wait_enter, hd, heq]

/-- C5: for a live barrier of threshold N ≥ 1 starting a generation
(count = 0), the arrival count stays below N (invariant), each of the
first N-1 arrivals blocks as a waiter of the current generation, the N-th
arrival alone takes the releasing branch (which increments the generation
by exactly one, resets count to 0 and broadcasts — outcome `.release 0`),
every waiter of the generation is released by the generation change and
the wait loop then returns OK (0); and k·N arrivals advance the generation
by exactly k, back to count = 0. -/
theorem barrier_generation_counting (b : fossil_threads_barrier) (N k : Nat)
    (hN : b.threshold = N) (h1 : 1 ≤ N) (hc : b.count = 0) (hd : b.destroyed = false) :
    (∀ bb : fossil_threads_barrier, bb.count < bb.threshold →
      (barrier_arrive bb).count < bb.threshold) ∧
    (∀ j, j + 1 < N → barrier_outcome_at b j = .waiting b.cycle) ∧
    barrier_outcome_at b (N - 1) = .release 0 ∧
    (barrier_arrivals b N).cycle = b.cycle + 1 ∧
    (barrier_arrivals b N).count = 0 ∧
    fossil_threads_barrier_wait_released b.cycle (barrier_arrivals b N) = true ∧
    fossil_threads_barrier_wait_loop_return = 0 ∧
    (barrier_arrivals b (k * N)).cycle = b.cycle + k ∧
    (barrier_arrivals b (k * N)).count = 0 := by
  subst hN
  have hround := barrier_round b hd hc h1
  have hrounds := barrier_rounds b k hd hc h1
  refine ⟨barrier_count_invariant, ?_, barrier_outcome_release b hd hc h1,
    ?_, ?_, ?_, rfl, ?_, ?_⟩
  · intro j hj
    exact barrier_outcome_waiting b hd hc j hj
  · rw [hround]
  · rw [hround]
  · rw [hround]
    simp [fossil_threads_barrier_wait_released]
  · rw [hrounds]
  · rw [hrounds]

theorem barrier_generation_counting_witness :
    bFix.threshold = 3 ∧ (1 : Nat) ≤ 3 ∧ bFix.count = 0 ∧ bFix.destroyed = false ∧
    (barrier_arrivals bFix 3).cycle = bFix.cycle + 1 ∧
    (barrier_arrivals bFix (2 * 3)).cycle = bFix.cycle + 2 :=
  ⟨by decide, by decide, by decide, by decide,
   (barrier_generation_counting bFix 3 2 rfl (by decide) rfl rfl).2.2.2.1,
   (barrier_generation_counting bFix 3 2 rfl (by decide) rfl rfl).2.2.2.2.2.2.2.1⟩

/-- C1: for a ghost with a pending proposal of n ≥ 1 candidates (and n within
the `int` range), `fossil_threads_ghost_collapse_by_consensus` locates the
most recent proposal ledger entry for the ghost's id, computes the 64-bit
FNV-1a chain seeded with 0xC0FFEE1234567890 over the current global ledger
count, the ghost id bytes, the proposal's step index and each candidate tag
in order, selects `chosen = H mod n`, installs `candidates[chosen].data` as
the ghost's state, records `chosen_index` and the state pointer in that
ledger entry, clears the ghost's candidate pointer and count, and returns
the non-negative index `chosen`. -/
theorem ghost_collapse_consensus_correct
    (g : fossil_threads_ghost) (s : GhostSys) (n i : Nat)
    (entry : fossil__ledger_entry)
    (hn : g.candidate_count = n) (h1 : 1 ≤ n) (hsmall : n ≤ 2 ^ 31)
    (hfind : s.ledger.findIdx? (fun e => e.ghost_id == g.id && e.proposal_present) =
      some i)
    (hentry : s.ledger.getD i default = entry)
    (htags : entry.proposal_tags.length = entry.proposal_candidate_count) :
    fossil__ghost_collapse_body g s =
      (((fossil__consensus_hash s.ledger_count entry.ghost_id entry.step_index
           entry.proposal_tags % n : Nat) : Int),
       { g with
         state := (g.candidates.getD (fossil__consensus_hash s.ledger_count
           entry.ghost_id entry.step_index entry.proposal_tags % n) default).data,
         candidates := [], candidate_count := 0 },
       { s with ledger := (s.ledger.set i
         { entry with
           chosen_index := some (fossil__consensus_hash s.ledger_count entry.ghost_id
             entry.step_index entry.proposal_tags % n),
           state_snapshot := (g.candidates.getD (fossil__consensus_hash s.ledger_count
             entry.ghost_id entry.step_index entry.proposal_tags % n) default).data }) }) ∧
    0 ≤ ((fossil__consensus_hash s.ledger_count entry.ghost_id entry.step_index
      entry.proposal_tags % n : Nat) : Int) ∧
    fossil__consensus_hash s.ledger_count entry.ghost_id entry.step_index
      entry.proposal_tags % n < n := by
  have hne0 : ¬(g.candidate_count = 0) := by omega
  have hmod : fossil__consensus_hash s.ledger_count entry.ghost_id entry.step_index
      entry.proposal_tags % n < n := Nat.mod_lt _ (by omega)
  refine ⟨?_, Int.ofNat_nonneg _, hmod⟩
  unfold fossil__ghost_collapse_body
  rw [if_neg hne0]
  split
  · rename_i hnone
    rw [hfind] at hnone
    cases hnone
  · rename_i j hj
    rw [hfind] at hj
    injection hj with hj
    subst hj
    rw [hentry]
    have htags2 : (List.range entry.proposal_candidate_count).map
        (fun j => entry.proposal_tags.getD j default) = entry.proposal_tags := by
      rw [← htags]
      exact range_map_getD_eq entry.proposal_tags
    simp only [htags2, hn]
    rw [c_int_of_u64_small _ (by omega)]

theorem ghost_collapse_consensus_correct_witness :
    c1ghost.candidate_count = 3 ∧ (1 : Nat) ≤ 3 ∧ (3 : Nat) ≤ 2 ^ 31 ∧
    c1sys.ledger.findIdx? (fun e => e.ghost_id == c1ghost.id && e.proposal_present) =
      some 0 ∧
    c1sys.ledger.getD 0 default = c1entry ∧
    c1entry.proposal_tags.length = c1entry.proposal_candidate_count ∧
    fossil__consensus_hash c1sys.ledger_count c1entry.ghost_id c1entry.step_index
      c1entry.proposal_tags % 3 < 3 :=
  ⟨by decide, by decide, by decide, by decide, by decide, by decide,
   (ghost_collapse_consensus_correct c1ghost c1sys 3 0 c1entry (by decide) (by decide)
     (by decide) (by decide) (by decide) (by decide)).2.2⟩

end FossilThreads
